import Mathlib

/-!
Shallow embedding of the routing-and-dispatch engine of the VM Nebula
backend (`app.py`, `database.py`).  Pure helper functions model the exact
Python string operations the source uses (`str.lower`, the `in` substring
operator, `str.split()` with no argument, `str.startswith`, `" ".join`).
Remote providers are modelled by an environment that yields, for every
successive network call of one dispatch, either a successful upstream
payload or an error; the adapters normalise those outcomes exactly as the
source does.  The database is a list of session records plus a flag that
makes the insert fail.
-/

namespace VMNebula

/-- Boolean test that the character list `pre` is a leading segment of the
second list; building block for the model of the Python `in` operator. -/
def isPrefixB : List Char → List Char → Bool
  | [], _ => true
  | _ :: _, [] => false
  | c :: cs, d :: ds => c == d && isPrefixB cs ds

/-- Model of the Python `in` operator on strings: `substrB n h` holds when
the character list `n` occurs contiguously inside `h`. -/
def substrB (needle : List Char) : List Char → Bool
  | [] => isPrefixB needle []
  | d :: ds => isPrefixB needle (d :: ds) || substrB needle ds

/-- Model of Python `str.lower()` (per-character lowering; the keyword sets
are ASCII so this matches the source behaviour). -/
def lower (s : String) : String := String.mk (s.data.map Char.toLower)

/-- Model of `any(keyword in query_lower for keyword in kws)` used by
`detect_agent`. -/
def hasKw (kws : List String) (s : String) : Bool :=
  kws.any (fun kw => substrB kw.data s.data)

/-- Keyword set of the Code Assistant (`detect_agent`, app.py lines 68-69). -/
def code_keywords : List String :=
  ["code", "function", "debug", "programming", "python", "javascript",
   "error", "bug", "syntax", "algorithm", "script", "class", "method"]

/-- Keyword set of the Research Assistant (app.py lines 72-73). -/
def research_keywords : List String :=
  ["research", "analyze", "compare", "find", "study", "investigate",
   "information", "data", "facts", "explain", "analysis", "summary"]

/-- Keyword set of the Task Helper (app.py lines 76-77). -/
def task_keywords : List String :=
  ["how to", "steps", "guide", "tutorial", "help", "process",
   "instruction", "walkthrough", "procedure", "setup"]

/-- Embedding of `detect_agent` (app.py lines 63-87): lower-case the query
and test the three keyword sets in order, defaulting to "task". -/
def detect_agent (query : String) : String :=
  let query_lower := lower query
  if hasKw code_keywords query_lower then "code"
  else if hasKw research_keywords query_lower then "research"
  else if hasKw task_keywords query_lower then "task"
  else "task"

/-- Helper for the model of Python `str.split()` with no argument: walks the
characters, `acc` carrying the current in-progress word reversed. -/
def pyWordsAux : List Char → List Char → List String
  | [], acc => if acc.isEmpty then [] else [String.mk acc.reverse]
  | c :: cs, acc =>
    if c.isWhitespace then
      if acc.isEmpty then pyWordsAux cs []
      else String.mk acc.reverse :: pyWordsAux cs []
    else pyWordsAux cs (c :: acc)

/-- Model of Python `str.split()`: maximal runs of non-whitespace
characters (no empty words). -/
def pySplit (s : String) : List String := pyWordsAux s.data []

/-- Embedding of `choose_model` (app.py lines 90-102): word-count and
category heuristics evaluated in the source's order. -/
def choose_model (query : String) (agent : String) : String :=
  let word_count := (pySplit query).length
  if word_count < 15 then "gemini-flash-8b"
  else if agent = "code" then "gemini-flash"
  else if word_count > 50 then "zai-large"
  else "gemini-flash"

/-- Normalised outcome of one adapter invocation (app.py §LLM Integration). -/
structure CallResult where
  response : String
  confidence : Rat
  processing_time : Rat
  token_count : Nat
  success : Bool
  deriving DecidableEq

/-- What the remote provider does on one network call: a successful payload
(text, elapsed wall-clock time, optional upstream token accounting) or an
exception with a message. -/
inductive UpstreamOutcome where
  | ok (text : String) (elapsed : Rat) (usage : Option Nat)
  | err (msg : String)

/-- True when the upstream call raised. -/
def UpstreamOutcome.isErr : UpstreamOutcome → Bool
  | .ok _ _ _ => false
  | .err _ => true

/-- Gemini model-name selection inside `call_gemini_flash` (app.py 111-114). -/
def gemini_model_name (model : String) : String :=
  if model = "gemini-flash-8b" then "gemini-1.5-flash-8b" else "gemini-1.5-flash"

/-- Embedding of `call_gemini_flash` (app.py lines 105-138): on success,
confidence 0.9 and a whitespace word count of the response text; on any
exception, a failure record with the error message in the response field. -/
def call_gemini_flash (query model : String) (outcome : UpstreamOutcome) : CallResult :=
  match outcome with
  | .ok text elapsed _ =>
    { response := text, confidence := 9/10, processing_time := elapsed,
      token_count := (pySplit text).length, success := true }
  | .err msg =>
    { response := "Gemini error: " ++ msg, confidence := 0, processing_time := 0,
      token_count := 0, success := false }

/-- Embedding of `call_zai_direct` (app.py lines 140-185): on success,
confidence 0.85 and the upstream token accounting when present (else a
whitespace word count); on any exception, a failure record. -/
def call_zai_direct (query : String) (outcome : UpstreamOutcome) : CallResult :=
  match outcome with
  | .ok text elapsed usage =>
    { response := text, confidence := 85/100, processing_time := elapsed,
      token_count := usage.getD (pySplit text).length, success := true }
  | .err msg =>
    { response := "Z.ai error: " ++ msg, confidence := 0, processing_time := 0,
      token_count := 0, success := false }

/-- Ambient state of one request: whether `Z_API_KEY` is configured, the
outcome of the i-th network call of the dispatch, whether the database
insert raises, and the generated session id. -/
structure Env where
  z_api_key : Bool
  outcomes : Nat → UpstreamOutcome
  db_fails : Bool
  gen_sid : String

/-- One adapter invocation as identified by the dispatcher. -/
inductive Attempt where
  | gemini (model : String)
  | zai
  deriving DecidableEq

/-- Model of Python `str.startswith`. -/
def startsWithB (s pre : String) : Bool := isPrefixB pre.data s.data

/-- The primary-branch dispatch of `call_llm` (app.py lines 199-204). -/
def primaryAttempt (model : String) : Attempt :=
  if startsWithB model "gemini" then Attempt.gemini model
  else if model = "zai-large" then Attempt.zai
  else Attempt.gemini "gemini-flash"

/-- Run one attempt against the i-th upstream outcome of the dispatch. -/
def runAttempt (env : Env) (i : Nat) (full_query : String) : Attempt → CallResult
  | Attempt.gemini m => call_gemini_flash full_query m (env.outcomes i)
  | Attempt.zai => call_zai_direct full_query (env.outcomes i)

/-- The `agent_prompts` dictionary lookup with default "" (app.py 190-196). -/
def agent_prompts (agent : String) : String :=
  if agent = "code" then
    "You are a Code Assistant. Provide detailed code analysis and explanations:\n\n"
  else if agent = "research" then
    "You are a Research Assistant. Provide comprehensive analysis and information:\n\n"
  else if agent = "task" then
    "You are a Task Helper. Provide step-by-step guidance:\n\n"
  else ""

/-- Embedding of `call_llm` (app.py lines 188-214).  Besides the returned
`CallResult` it also records the list of adapter attempts actually made, in
order, so the fallback chain itself can be stated.  The source's
`if model != "gemini-flash"` guard is kept verbatim (here with the branches
swapped around the equality test). -/
def call_llm (env : Env) (model query agent : String) : CallResult × List Attempt :=
  let full_query := agent_prompts agent ++ query
  let a0 := primaryAttempt model
  let r0 := runAttempt env 0 full_query a0
  if r0.success then (r0, [a0])
  else
    let p1 :=
      if model = "gemini-flash" then (r0, [a0])
      else (runAttempt env 1 full_query (Attempt.gemini "gemini-flash"),
            [a0, Attempt.gemini "gemini-flash"])
    if !p1.1.success && env.z_api_key then
      (runAttempt env p1.2.length full_query Attempt.zai, p1.2 ++ [Attempt.zai])
    else p1

/-- The body of the `ChatResponse` Pydantic model (app.py lines 54-60). -/
structure ChatResponse where
  agent_used : String
  response : String
  model : String
  confidence : Rat
  processing_time : Rat
  token_count : Nat
  deriving DecidableEq

/-- One row of the `sessions` table (database.py lines 24-37, timestamp
left to the store). -/
structure SessionRecord where
  session_id : String
  query : String
  response : String
  agent_used : String
  model : String
  confidence : Rat
  processing_time : Rat
  token_count : Nat
  deriving DecidableEq

/-- Embedding of `DatabaseManager.save_session` (database.py lines 49-76):
append one row built from the result and routing metadata; any exception is
caught and reported as `false` with the store unchanged. -/
def save_session (env : Env) (store : List SessionRecord) (session_id query : String)
    (response_data : CallResult) (agent model : String) : List SessionRecord × Bool :=
  if env.db_fails then (store, false)
  else
    (store ++ [{ session_id := session_id, query := query,
                 response := response_data.response, agent_used := agent, model := model,
                 confidence := response_data.confidence,
                 processing_time := response_data.processing_time,
                 token_count := response_data.token_count }], true)

/-- `request.session_id or f"sess_..."` (app.py line 222): Python `or`
replaces both a missing and an empty session id by the generated one. -/
def resolve_session_id (reqSid : Option String) (genSid : String) : String :=
  match reqSid with
  | none => genSid
  | some s => if s = "" then genSid else s

/-- Embedding of the `/chat` endpoint body (app.py lines 218-243). -/
def chat_endpoint (env : Env) (store : List SessionRecord) (query : String)
    (reqSid : Option String) : ChatResponse × List SessionRecord :=
  let session_id := resolve_session_id reqSid env.gen_sid
  let agent := detect_agent query
  let model := choose_model query agent
  let result := (call_llm env model query agent).1
  let store2 := (save_session env store session_id query result agent model).1
  ({ agent_used := agent, response := result.response, model := model,
     confidence := result.confidence, processing_time := result.processing_time,
     token_count := result.token_count }, store2)

/-- One server-sent event of the streaming endpoint (app.py lines 273-301). -/
inductive StreamEvent where
  | start (agent : String)
  | delta (content : String)
  | complete (model : String) (confidence : Rat)
  | error (message : String)
  deriving DecidableEq

/-- The chunking of `for i in range(0, len(words), 5): words[i:i+5]`
(app.py lines 287-288). -/
def chunkWords : List String → List (List String)
  | [] => []
  | [a] => [[a]]
  | [a, b] => [[a, b]]
  | [a, b, c] => [[a, b, c]]
  | [a, b, c, d] => [[a, b, c, d]]
  | a :: b :: c :: d :: e :: rest => [a, b, c, d, e] :: chunkWords rest

/-- Model of Python `" ".join`. -/
def joinSpace : List String → String
  | [] => ""
  | [w] => w
  | w :: ws => w ++ " " ++ joinSpace ws

/-- Embedding of `generate_stream` inside `/chat/stream` (app.py lines
273-301): one start event, the 5-word delta chunks of the response text,
one complete event, then the session save. -/
def generate_stream (env : Env) (store : List SessionRecord) (query : String)
    (reqSid : Option String) : List StreamEvent × List SessionRecord :=
  let session_id := resolve_session_id reqSid env.gen_sid
  let agent := detect_agent query
  let model := choose_model query agent
  let result := (call_llm env model query agent).1
  let words := pySplit result.response
  let events :=
    StreamEvent.start (detect_agent query) ::
      ((chunkWords words).map (fun c => StreamEvent.delta (joinSpace c)) ++
        [StreamEvent.complete model result.confidence])
  let store2 := (save_session env store session_id query result agent model).1
  (events, store2)

/-- C4: a query containing a code keyword (case-insensitively) classifies
as code whatever else it contains; a query matching no keyword set
classifies as task; and classification is total over the three categories. -/
theorem detect_agent_spec :
    (∀ q : String, hasKw code_keywords (lower q) = true → detect_agent q = "code") ∧
    (∀ q : String, hasKw code_keywords (lower q) = false →
      hasKw research_keywords (lower q) = false →
      hasKw task_keywords (lower q) = false → detect_agent q = "task") ∧
    (∀ q : String,
      detect_agent q = "code" ∨ detect_agent q = "research" ∨ detect_agent q = "task") := by
  refine ⟨?_, ?_, ?_⟩
  · intro q h
    simp [detect_agent, h]
  · intro q h1 h2 h3
    simp [detect_agent, h1, h2, h3]
  · intro q
    unfold detect_agent
    by_cases h1 : hasKw code_keywords (lower q) = true
    · simp [h1]
    · by_cases h2 : hasKw research_keywords (lower q) = true
      · simp [h1, h2]
      · by_cases h3 : hasKw task_keywords (lower q) = true <;> simp [h1, h2, h3]

/-- Witness for C4 at the spec's own example query. -/
theorem detect_agent_spec_witness :
    detect_agent "How to debug this algorithm?" = "code" :=
  detect_agent_spec.1 "How to debug this algorithm?" (by decide)

/-- C5: the four-rule first-match selection policy of `choose_model`:
short queries get the cheapest model, then code queries the mid-tier code
model, then very long queries the largest model, else the mid-tier default. -/
theorem choose_model_spec (q agent : String) :
    ((pySplit q).length < 15 → choose_model q agent = "gemini-flash-8b") ∧
    (¬ (pySplit q).length < 15 → agent = "code" → choose_model q agent = "gemini-flash") ∧
    (¬ (pySplit q).length < 15 → agent ≠ "code" → (pySplit q).length > 50 →
      choose_model q agent = "zai-large") ∧
    (¬ (pySplit q).length < 15 → agent ≠ "code" → ¬ (pySplit q).length > 50 →
      choose_model q agent = "gemini-flash") := by
  refine ⟨?_, ?_, ?_, ?_⟩
  · intro h; simp [choose_model, h]
  · intro h1 h2; simp [choose_model, h1, h2]
  · intro h1 h2 h3; simp [choose_model, h1, h2, h3]
  · intro h1 h2 h3; simp [choose_model, h1, h2, h3]

/-- A sixty-word query (the spec's research example for the long-query rule). -/
def sixtyWordQuery : String :=
  "survey the published evidence on urban heat islands across europe and asia " ++
  "then contrast mitigation policies adopted by large coastal cities with those " ++
  "of inland capitals covering green roofing reflective pavements tree canopy " ++
  "expansion district cooling and zoning reform and assess which combination " ++
  "of measures delivered the largest measured reduction in summer surface " ++
  "temperatures over the last two decades including uncertainty caveats noted " ++
  "by reviewers"

/-- Witness for C5: the sixty-word research query selects the largest model. -/
theorem choose_model_spec_witness :
    choose_model sixtyWordQuery "research" = "zai-large" :=
  (choose_model_spec sixtyWordQuery "research").2.2.1 (by decide) (by decide) (by decide)

/-- C8: classification and model selection observable through the endpoint
are pure functions of the query text alone: any two requests with the same
query, whatever the environment, stores and session ids, report the same
agent and the same model, namely the classifier's and selector's values. -/
theorem routing_deterministic (env1 env2 : Env) (store1 store2 : List SessionRecord)
    (sid1 sid2 : Option String) (q : String) :
    (chat_endpoint env1 store1 q sid1).1.agent_used
        = (chat_endpoint env2 store2 q sid2).1.agent_used ∧
    (chat_endpoint env1 store1 q sid1).1.model = (chat_endpoint env2 store2 q sid2).1.model ∧
    (chat_endpoint env1 store1 q sid1).1.agent_used = detect_agent q ∧
    (chat_endpoint env1 store1 q sid1).1.model = choose_model q (detect_agent q) :=
  ⟨rfl, rfl, rfl, rfl⟩

/-- C10: a failed adapter invocation reports token count 0 (together with
confidence 0 and duration 0), for both adapters. -/
theorem adapter_failure_zero_tokens (q m : String) (o : UpstreamOutcome) :
    ((call_gemini_flash q m o).success = false →
      (call_gemini_flash q m o).token_count = 0 ∧
      (call_gemini_flash q m o).confidence = 0 ∧
      (call_gemini_flash q m o).processing_time = 0) ∧
    ((call_zai_direct q o).success = false →
      (call_zai_direct q o).token_count = 0 ∧
      (call_zai_direct q o).confidence = 0 ∧
      (call_zai_direct q o).processing_time = 0) := by
  constructor <;> intro h <;> cases o <;>
    simp_all [call_gemini_flash, call_zai_direct]

/-- Witness for C10 at a concrete failing upstream call. -/
theorem adapter_failure_zero_tokens_witness :
    (call_gemini_flash "q" "gemini-flash" (UpstreamOutcome.err "down")).token_count = 0 :=
  ((adapter_failure_zero_tokens "q" "gemini-flash" (UpstreamOutcome.err "down")).1
    (by decide)).1

/-- Every character of a leading segment occurs in the whole list. -/
theorem isPrefixB_mem {l m : List Char} (h : isPrefixB l m = true) : ∀ a ∈ l, a ∈ m := by
  induction l generalizing m with
  | nil => intro a ha; cases ha
  | cons c cs ih =>
    cases m with
    | nil => simp [isPrefixB] at h
    | cons d ds =>
      simp only [isPrefixB, Bool.and_eq_true, beq_iff_eq] at h
      obtain ⟨rfl, h2⟩ := h
      intro a ha
      rcases List.mem_cons.mp ha with rfl | ha
      · exact List.mem_cons_self _ _
      · exact List.mem_cons_of_mem _ (ih h2 a ha)

/-- Every character of a contiguous substring occurs in the whole list. -/
theorem substrB_mem {l m : List Char} (h : substrB l m = true) : ∀ a ∈ l, a ∈ m := by
  induction m with
  | nil =>
    cases l with
    | nil => intro a ha; cases ha
    | cons c cs => simp [substrB, isPrefixB] at h
  | cons d ds ih =>
    simp only [substrB, Bool.or_eq_true] at h
    rcases h with h | h
    · exact isPrefixB_mem h
    · intro a ha
      exact List.mem_cons_of_mem _ (ih h a ha)

/-- Lower-casing keeps whitespace characters whitespace. -/
theorem toLower_whitespace {c : Char} (h : c.isWhitespace = true) :
    c.toLower.isWhitespace = true := by
  simp only [Char.isWhitespace, Bool.or_eq_true, decide_eq_true_eq] at h
  rcases h with ((rfl | rfl) | rfl) | rfl <;> decide

/-- The model of `str.lower` keeps an all-whitespace string all-whitespace. -/
theorem lower_whitespace {q : String} (h : q.data.all Char.isWhitespace = true) :
    (lower q).data.all Char.isWhitespace = true := by
  rw [List.all_eq_true] at h
  rw [lower, List.all_eq_true]
  intro a ha
  obtain ⟨b, hb, rfl⟩ := List.mem_map.mp ha
  exact toLower_whitespace (h b hb)

/-- No keyword of a set whose members each contain a non-whitespace
character can be found inside an all-whitespace string. -/
theorem hasKw_eq_false_of_whitespace (kws : List String)
    (hk : kws.all (fun kw => kw.data.any (fun c => !c.isWhitespace)) = true)
    (s : String) (hs : s.data.all Char.isWhitespace = true) :
    hasKw kws s = false := by
  rw [hasKw]
  by_contra hcon
  rw [Bool.not_eq_false, List.any_eq_true] at hcon
  obtain ⟨kw, hmem, hsub⟩ := hcon
  rw [List.all_eq_true] at hk
  have hkw := hk kw hmem
  rw [List.any_eq_true] at hkw
  obtain ⟨c, hc, hnw⟩ := hkw
  have hcm : c ∈ s.data := substrB_mem hsub c hc
  have := List.all_eq_true.mp hs c hcm
  simp_all

/-- Splitting an all-whitespace character list yields no words. -/
theorem pyWordsAux_whitespace : ∀ l : List Char, l.all Char.isWhitespace = true →
    pyWordsAux l [] = [] := by
  intro l
  induction l with
  | nil => intro _; rfl
  | cons c cs ih =>
    intro h
    rw [List.all_cons, Bool.and_eq_true] at h
    simpa [pyWordsAux, h.1] using ih h.2

/-- C9: an empty or all-whitespace query classifies as the default
category "task" and, having word count zero, selects the cheapest model
"gemini-flash-8b" whatever the category argument. -/
theorem whitespace_query_defaults (q : String)
    (hws : q.data.all Char.isWhitespace = true) :
    detect_agent q = "task" ∧ ∀ agent, choose_model q agent = "gemini-flash-8b" := by
  have hl := lower_whitespace hws
  have h1 := hasKw_eq_false_of_whitespace code_keywords (by decide) (lower q) hl
  have h2 := hasKw_eq_false_of_whitespace research_keywords (by decide) (lower q) hl
  have h3 := hasKw_eq_false_of_whitespace task_keywords (by decide) (lower q) hl
  have hsplit : pySplit q = [] := pyWordsAux_whitespace q.data hws
  constructor
  · simp [detect_agent, h1, h2, h3]
  · intro agent
    simp [choose_model, hsplit]

/-- Witness for C9 at the empty query and a blank query. -/
theorem whitespace_query_defaults_witness :
    detect_agent "" = "task" ∧ choose_model " " "task" = "gemini-flash-8b" :=
  ⟨(whitespace_query_defaults "" (by decide)).1,
   (whitespace_query_defaults " " (by decide)).2 "task"⟩

/-- A failed attempt yields the adapter's normalised failure record with an
error-describing response text. -/
theorem runAttempt_err (env : Env) (i : Nat) (fq : String) (a : Attempt)
    (h : (env.outcomes i).isErr = true) :
    (runAttempt env i fq a).success = false ∧
    (runAttempt env i fq a).confidence = 0 ∧
    (runAttempt env i fq a).processing_time = 0 ∧
    (runAttempt env i fq a).token_count = 0 ∧
    ∃ msg, (runAttempt env i fq a).response = "Gemini error: " ++ msg ∨
           (runAttempt env i fq a).response = "Z.ai error: " ++ msg := by
  cases a with
  | gemini m =>
    cases ho : env.outcomes i with
    | ok t e u => rw [ho] at h; simp [UpstreamOutcome.isErr] at h
    | err msg =>
      refine ⟨?_, ?_, ?_, ?_, ⟨msg, Or.inl ?_⟩⟩ <;>
        simp [runAttempt, call_gemini_flash, ho]
  | zai =>
    cases ho : env.outcomes i with
    | ok t e u => rw [ho] at h; simp [UpstreamOutcome.isErr] at h
    | err msg =>
      refine ⟨?_, ?_, ?_, ?_, ⟨msg, Or.inr ?_⟩⟩ <;>
        simp [runAttempt, call_zai_direct, ho]

/-- Case characterization of the dispatcher: the result and the attempt
trace of `call_llm` in each of its six control-flow cases. -/
theorem call_llm_eq (env : Env) (model query agent : String) :
    call_llm env model query agent =
      (let fq := agent_prompts agent ++ query
       let a0 := primaryAttempt model
       let r0 := runAttempt env 0 fq a0
       if r0.success then (r0, [a0])
       else if model = "gemini-flash" then
         (if env.z_api_key then (runAttempt env 1 fq Attempt.zai, [a0, Attempt.zai])
          else (r0, [a0]))
       else
         let r1 := runAttempt env 1 fq (Attempt.gemini "gemini-flash")
         if r1.success then (r1, [a0, Attempt.gemini "gemini-flash"])
         else if env.z_api_key then
           (runAttempt env 2 fq Attempt.zai,
            [a0, Attempt.gemini "gemini-flash", Attempt.zai])
         else (r1, [a0, Attempt.gemini "gemini-flash"])) := by
  by_cases hm : model = "gemini-flash"
  · subst hm
    cases h0 : (runAttempt env 0 (agent_prompts agent ++ query)
        (primaryAttempt "gemini-flash")).success
    · cases hz : env.z_api_key <;> simp [call_llm, h0, hz]
    · simp [call_llm, h0]
  · cases h0 : (runAttempt env 0 (agent_prompts agent ++ query) (primaryAttempt model)).success
    · cases h1 : (runAttempt env 1 (agent_prompts agent ++ query)
          (Attempt.gemini "gemini-flash")).success <;>
        cases hz : env.z_api_key <;> simp [call_llm, h0, hm, hz, h1]
    · simp [call_llm, h0]

/-- C2: dispatch is a total function and, when every upstream call of the
dispatch fails, it returns the last attempt's CallResult: success is
false, confidence, duration and token count are zero, the response field
carries an error-describing text, and the returned record is literally the
result of the final attempt in the trace. -/
theorem call_llm_exhausted (env : Env) (model query agent : String)
    (hall : ∀ i, (env.outcomes i).isErr = true) :
    (call_llm env model query agent).1.success = false ∧
    (call_llm env model query agent).1.confidence = 0 ∧
    (call_llm env model query agent).1.processing_time = 0 ∧
    (call_llm env model query agent).1.token_count = 0 ∧
    (∃ msg, (call_llm env model query agent).1.response = "Gemini error: " ++ msg ∨
            (call_llm env model query agent).1.response = "Z.ai error: " ++ msg) ∧
    (∃ a, (call_llm env model query agent).2.getLast? = some a ∧
          (call_llm env model query agent).1 =
            runAttempt env ((call_llm env model query agent).2.length - 1)
              (agent_prompts agent ++ query) a) := by
  rw [call_llm_eq]
  by_cases hm : model = "gemini-flash"
  · subst hm
    have e0 := runAttempt_err env 0 (agent_prompts agent ++ query)
      (primaryAttempt "gemini-flash") (hall 0)
    have ez1 := runAttempt_err env 1 (agent_prompts agent ++ query) Attempt.zai (hall 1)
    cases hz : env.z_api_key
    · simp only [e0.1, Bool.false_eq_true, if_false, if_true, hz]
      exact ⟨trivial, e0.2.1, e0.2.2.1, e0.2.2.2.1, e0.2.2.2.2,
        primaryAttempt "gemini-flash", by simp, by simp⟩
    · simp only [e0.1, Bool.false_eq_true, if_false, if_true, hz]
      exact ⟨ez1.1, ez1.2.1, ez1.2.2.1, ez1.2.2.2.1, ez1.2.2.2.2,
        Attempt.zai, by simp, by simp⟩
  · have e0 := runAttempt_err env 0 (agent_prompts agent ++ query)
      (primaryAttempt model) (hall 0)
    have e1 := runAttempt_err env 1 (agent_prompts agent ++ query)
      (Attempt.gemini "gemini-flash") (hall 1)
    have ez2 := runAttempt_err env 2 (agent_prompts agent ++ query) Attempt.zai (hall 2)
    cases hz : env.z_api_key
    · simp only [e0.1, e1.1, hm, Bool.false_eq_true, if_false, if_true, hz]
      exact ⟨trivial, e1.2.1, e1.2.2.1, e1.2.2.2.1, e1.2.2.2.2,
        Attempt.gemini "gemini-flash", by simp, by simp⟩
    · simp only [e0.1, e1.1, hm, Bool.false_eq_true, if_false, if_true, hz]
      exact ⟨ez2.1, ez2.2.1, ez2.2.2.1, ez2.2.2.2.1, ez2.2.2.2.2,
        Attempt.zai, by simp, by simp⟩

/-- Environment in which every upstream call raises and the secondary
provider credential is configured. -/
def envAllFail : Env :=
  { z_api_key := true, db_fails := false, gen_sid := "sess_gen",
    outcomes := fun _ => UpstreamOutcome.err "service down" }

/-- Witness for C2: a concrete exhausted dispatch is a failure record. -/
theorem call_llm_exhausted_witness :
    (call_llm envAllFail "gemini-flash-8b" "hi" "task").1.success = false ∧
    (call_llm envAllFail "gemini-flash-8b" "hi" "task").1.confidence = 0 := by
  have h := call_llm_exhausted envAllFail "gemini-flash-8b" "hi" "task" (fun _ => rfl)
  exact ⟨h.1, h.2.1⟩

/-- C6: over the models the selector can emit, the fallback chain of one
dispatch has depth at most three and each stage runs exactly under its
guard: the primary adapter always and first; the gemini-flash adapter
again only when the primary failed and the selected model was not already
gemini-flash (which, for these models, is exactly when the primary was not
already the default fallback); the Z.ai adapter only when still failing
and the Z.ai credential is configured; and no further attempt occurs. -/
theorem call_llm_fallback_chain (env : Env) (model query agent : String)
    (hm : model = "gemini-flash-8b" ∨ model = "gemini-flash" ∨ model = "zai-large") :
    (call_llm env model query agent).2.length ≤ 3 ∧
    (primaryAttempt model = Attempt.gemini "gemini-flash" ↔ model = "gemini-flash") ∧
    ((runAttempt env 0 (agent_prompts agent ++ query) (primaryAttempt model)).success = true →
      (call_llm env model query agent).2 = [primaryAttempt model]) ∧
    ((runAttempt env 0 (agent_prompts agent ++ query) (primaryAttempt model)).success = false →
      model ≠ "gemini-flash" →
      (runAttempt env 1 (agent_prompts agent ++ query)
        (Attempt.gemini "gemini-flash")).success = true →
      (call_llm env model query agent).2 =
        [primaryAttempt model, Attempt.gemini "gemini-flash"]) ∧
    ((runAttempt env 0 (agent_prompts agent ++ query) (primaryAttempt model)).success = false →
      model ≠ "gemini-flash" →
      (runAttempt env 1 (agent_prompts agent ++ query)
        (Attempt.gemini "gemini-flash")).success = false →
      env.z_api_key = true →
      (call_llm env model query agent).2 =
        [primaryAttempt model, Attempt.gemini "gemini-flash", Attempt.zai]) ∧
    ((runAttempt env 0 (agent_prompts agent ++ query) (primaryAttempt model)).success = false →
      model ≠ "gemini-flash" →
      (runAttempt env 1 (agent_prompts agent ++ query)
        (Attempt.gemini "gemini-flash")).success = false →
      env.z_api_key = false →
      (call_llm env model query agent).2 =
        [primaryAttempt model, Attempt.gemini "gemini-flash"]) ∧
    ((runAttempt env 0 (agent_prompts agent ++ query) (primaryAttempt model)).success = false →
      model = "gemini-flash" → env.z_api_key = true →
      (call_llm env model query agent).2 = [primaryAttempt model, Attempt.zai]) ∧
    ((runAttempt env 0 (agent_prompts agent ++ query) (primaryAttempt model)).success = false →
      model = "gemini-flash" → env.z_api_key = false →
      (call_llm env model query agent).2 = [primaryAttempt model]) := by
  refine ⟨?_, ?_, ?_, ?_, ?_, ?_, ?_, ?_⟩
  · rw [call_llm_eq]
    dsimp only
    by_cases h0 : (runAttempt env 0 (agent_prompts agent ++ query)
        (primaryAttempt model)).success = true
    · rw [if_pos h0]; simp
    · rw [if_neg h0]
      by_cases hmf : model = "gemini-flash"
      · rw [if_pos hmf]
        by_cases hz : env.z_api_key = true
        · rw [if_pos hz]; simp
        · rw [if_neg hz]; simp
      · rw [if_neg hmf]
        by_cases h1 : (runAttempt env 1 (agent_prompts agent ++ query)
            (Attempt.gemini "gemini-flash")).success = true
        · rw [if_pos h1]; simp
        · rw [if_neg h1]
          by_cases hz : env.z_api_key = true
          · rw [if_pos hz]; simp
          · rw [if_neg hz]; simp
  · rcases hm with rfl | rfl | rfl <;> simp [primaryAttempt, startsWithB, isPrefixB]
  · intro h0
    rw [call_llm_eq]
    simp [h0]
  · intro h0 hne h1
    rw [call_llm_eq]
    simp [h0, hne, h1]
  · intro h0 hne h1 hz
    rw [call_llm_eq]
    simp [h0, hne, h1, hz]
  · intro h0 hne h1 hz
    rw [call_llm_eq]
    simp [h0, hne, h1, hz]
  · intro h0 heq hz
    subst heq
    rw [call_llm_eq]
    simp [h0, hz]
  · intro h0 heq hz
    subst heq
    rw [call_llm_eq]
    simp [h0, hz]

/-- Witness for C6: with every upstream call failing and the credential
configured, a concrete dispatch attempts exactly the three stages in
order. -/
theorem call_llm_fallback_chain_witness :
    (call_llm envAllFail "gemini-flash-8b" "hi" "task").2 =
      [Attempt.gemini "gemini-flash-8b", Attempt.gemini "gemini-flash", Attempt.zai] := by
  have h := call_llm_fallback_chain envAllFail "gemini-flash-8b" "hi" "task" (Or.inl rfl)
  exact h.2.2.2.2.1 (by decide) (by decide) (by decide) (by decide)

/-- Environment where the primary upstream call fails and every later one
succeeds: a forced primary failure with a healthy gemini-flash fallback. -/
def envFallbackOk : Env :=
  { z_api_key := false, db_fails := false, gen_sid := "sess_gen",
    outcomes := fun i =>
      if i = 0 then UpstreamOutcome.err "primary unavailable"
      else UpstreamOutcome.ok "Hello from the fallback model" 1 none }

/-- C1 fails on the code: in a dispatch of the query "hi" where the
selected model gemini-flash-8b fails and the gemini-flash fallback
succeeds (the fallback demonstrably ran, succeeded and produced the
response), the caller-visible model field and the persisted record still
carry the originally selected "gemini-flash-8b", not the fallback's
identity "gemini-flash" the claim requires. -/
theorem fallback_model_identity_not_updated :
    (call_llm envFallbackOk "gemini-flash-8b" "hi" "task").2 =
      [Attempt.gemini "gemini-flash-8b", Attempt.gemini "gemini-flash"] ∧
    (call_llm envFallbackOk "gemini-flash-8b" "hi" "task").1.success = true ∧
    (call_llm envFallbackOk "gemini-flash-8b" "hi" "task").1.response =
      "Hello from the fallback model" ∧
    (chat_endpoint envFallbackOk [] "hi" none).1.model = "gemini-flash-8b" ∧
    (chat_endpoint envFallbackOk [] "hi" none).2.map SessionRecord.model =
      ["gemini-flash-8b"] := by
  refine ⟨?_, ?_, ?_, ?_, ?_⟩ <;> decide

/-- C3: a dispatch through the chat endpoint appends exactly one session
record carrying the dispatch result's data and the routing metadata when
the store accepts the insert; a failing insert leaves the store unchanged
and never alters the caller-visible response. -/
theorem chat_endpoint_record (env : Env) (store : List SessionRecord) (q : String)
    (sid : Option String) :
    (env.db_fails = false →
      (chat_endpoint env store q sid).2 =
        store ++ [{ session_id := resolve_session_id sid env.gen_sid, query := q,
                    response := (call_llm env (choose_model q (detect_agent q)) q
                      (detect_agent q)).1.response,
                    agent_used := detect_agent q,
                    model := choose_model q (detect_agent q),
                    confidence := (call_llm env (choose_model q (detect_agent q)) q
                      (detect_agent q)).1.confidence,
                    processing_time := (call_llm env (choose_model q (detect_agent q)) q
                      (detect_agent q)).1.processing_time,
                    token_count := (call_llm env (choose_model q (detect_agent q)) q
                      (detect_agent q)).1.token_count }]) ∧
    (env.db_fails = true → (chat_endpoint env store q sid).2 = store) ∧
    (chat_endpoint env store q sid).1 =
      (chat_endpoint { env with db_fails := false } store q sid).1 := by
  refine ⟨?_, ?_, rfl⟩
  · intro h
    simp [chat_endpoint, save_session, h]
  · intro h
    simp [chat_endpoint, save_session, h]

/-- Witness for C3: a concrete dispatch over the empty store appends one
record. -/
theorem chat_endpoint_record_witness :
    ((chat_endpoint envFallbackOk [] "hi" none).2).length = 1 := by
  have h := (chat_endpoint_record envFallbackOk [] "hi" none).1 rfl
  simp [h]

/-- The number of 5-word chunks is the word count divided by five, rounded
up. -/
theorem chunkWords_length (ws : List String) :
    (chunkWords ws).length = (ws.length + 4) / 5 := by
  induction ws using chunkWords.induct <;> simp [chunkWords, *] <;> omega

/-- The delta chunks concatenate back to the full word list. -/
theorem chunkWords_join (ws : List String) : (chunkWords ws).flatten = ws := by
  induction ws using chunkWords.induct <;> simp [chunkWords, *]

/-- Every chunk carries at most five words. -/
theorem chunkWords_le_five (ws : List String) : ∀ c ∈ chunkWords ws, c.length ≤ 5 := by
  induction ws using chunkWords.induct <;>
    intro c hc <;> simp only [chunkWords, List.mem_cons, List.mem_singleton] at hc
  case case1 => cases hc
  case case2 a => rcases hc with rfl | hc
                  · simp
                  · cases hc
  case case3 a b => rcases hc with rfl | hc
                    · simp
                    · cases hc
  case case4 a b c1 => rcases hc with rfl | hc
                       · simp
                       · cases hc
  case case5 a b c1 d => rcases hc with rfl | hc
                         · simp
                         · cases hc
  case case6 a b c1 d e rest ih =>
    rcases hc with rfl | hc
    · simp
    · exact ih c hc

/-- A 13-word list chunks into sizes 5, 5, 3. -/
theorem chunkWords_thirteen (ws : List String) (h : ws.length = 13) :
    (chunkWords ws).map List.length = [5, 5, 3] := by
  rcases ws with _|⟨a1,_|⟨a2,_|⟨a3,_|⟨a4,_|⟨a5,_|⟨a6,_|⟨a7,_|⟨a8,_|⟨a9,_|⟨a10,_|⟨a11,_|⟨a12,_|⟨a13,tail⟩⟩⟩⟩⟩⟩⟩⟩⟩⟩⟩⟩⟩ <;>
    simp only [List.length_cons, List.length_nil] at h <;>
    first
      | omega
      | (have ht : tail = [] := by
           have hlen : tail.length = 0 := by omega
           exact List.length_eq_zero.mp hlen
         subst ht
         rfl)

/-- C7: the streaming endpoint emits exactly one start event with the
classified category, then one delta per 5-word chunk of the response text
(the number of deltas is the word count divided by five rounded up, the
chunks concatenate back to the words, each chunk at most five words),
then exactly one complete event with the model and confidence; a 13-word
response gives deltas of 5, 5 and 3 words. -/
theorem generate_stream_spec (env : Env) (store : List SessionRecord) (q : String)
    (sid : Option String) (r : CallResult) (ws : List String)
    (hr : r = (call_llm env (choose_model q (detect_agent q)) q (detect_agent q)).1)
    (hws : ws = pySplit r.response) :
    (generate_stream env store q sid).1 =
      StreamEvent.start (detect_agent q) ::
        ((chunkWords ws).map (fun c => StreamEvent.delta (joinSpace c)) ++
          [StreamEvent.complete (choose_model q (detect_agent q)) r.confidence]) ∧
    (chunkWords ws).length = (ws.length + 4) / 5 ∧
    (chunkWords ws).flatten = ws ∧
    (∀ c ∈ chunkWords ws, c.length ≤ 5) ∧
    (ws.length = 13 → (chunkWords ws).map List.length = [5, 5, 3]) := by
  subst hr
  subst hws
  exact ⟨rfl, chunkWords_length _, chunkWords_join _, chunkWords_le_five _,
    chunkWords_thirteen _⟩

/-- Environment whose upstream calls succeed with a thirteen-word text. -/
def envThirteen : Env :=
  { z_api_key := false, db_fails := false, gen_sid := "sess_gen",
    outcomes := fun _ =>
      UpstreamOutcome.ok
        "one two three four five six seven eight nine ten eleven twelve thirteen" 1 none }

/-- Witness for C7: the 13-word response of a concrete dispatch chunks
into deltas of 5, 5 and 3 words. -/
theorem generate_stream_spec_witness :
    (chunkWords (pySplit (call_llm envThirteen
        (choose_model "hi" (detect_agent "hi")) "hi" (detect_agent "hi")).1.response)).map
      List.length = [5, 5, 3] := by
  have h := generate_stream_spec envThirteen [] "hi" none _ _ rfl rfl
  exact h.2.2.2.2 (by decide)

end VMNebula
